import Mathlib

/-!
Verification of the job auto-apply pipeline (`src/Job_applier.py`) and the
contact discovery / outreach pass (`src/Contact.py`).

The Python code is shallowly embedded: pure helpers become Lean functions on
`String` (viewed as its list of characters), Python floats are modelled as
exact rationals (`ℚ`), exceptions raised by browser / network primitives are
modelled by boolean capability records saying whether each primitive succeeds,
and the regular expressions of the source are compiled by hand into executable
character-list scanners with the same matching semantics on the inputs the
program feeds them.
-/

namespace AutoApply

/-! ### Python string primitives

`pyUpper`, `pyLower`, `pyStrip` model `str.upper`, `str.lower`, `str.strip`
for the ASCII texts the pipeline manipulates; `containsSub` models the Python
substring test `needle in hay`.
-/

def pyUpper (s : String) : String := ⟨s.data.map Char.toUpper⟩

def pyLower (s : String) : String := ⟨s.data.map Char.toLower⟩

def isPySpace (c : Char) : Bool :=
  c = ' ' || c = '\t' || c = '\n' || c = '\r' || c = '\x0b' || c = '\x0c'

def pyStrip (s : String) : String :=
  ⟨((s.data.dropWhile isPySpace).reverse.dropWhile isPySpace).reverse⟩

def listContainsSub (needle : List Char) : List Char → Bool
  | [] => needle.isEmpty
  | c :: cs => needle.isPrefixOf (c :: cs) || listContainsSub needle cs

def containsSub (needle hay : String) : Bool :=
  listContainsSub needle.data hay.data

/-! ### Data model: `JobPost` (src/Job_applier.py, `@dataclass class JobPost`) -/

structure JobPost where
  company : String
  role : String
  location : String
  link : String
  source : String
  salary : String := "N/A"
  remote : String := "Unknown"
  description_snippet : String := ""
  status : String := "Pending"
  deriving DecidableEq, Repr

/-- Model of `JobPost.dedupe_key`: `(company.strip().lower(), role.strip().lower(),
location.strip().lower(), link.strip())`.  Note the link is stripped but
*not* lower-cased in the source. -/
def JobPost.dedupe_key (j : JobPost) : String × String × String × String :=
  (pyLower (pyStrip j.company), pyLower (pyStrip j.role),
   pyLower (pyStrip j.location), pyStrip j.link)

/-! ### Deduplicator (`dedupe_jobs`)

The Python loop keeps a `seen` set of keys and appends a job to the output
only when its key has not been seen; the set is modelled as a list of keys
with membership. -/

def dedupeAux (seen : List (String × String × String × String)) :
    List JobPost → List JobPost
  | [] => []
  | j :: js =>
    if j.dedupe_key ∈ seen then dedupeAux seen js
    else j :: dedupeAux (j.dedupe_key :: seen) js

def dedupe_jobs (jobs : List JobPost) : List JobPost :=
  dedupeAux [] jobs

/-! ### Salary parsing (`extract_salary_numbers`)

The source first removes commas and unifies the dash variants `—`/`–` to
`-`, detects a currency by first match in the `CURRENCY_SYMBOLS` table,
extracts the lower bound of a range `X-Y` (regex
`(\d+(?:\.\d+)?)\s*-\s*(\d+(?:\.\d+)?)`) or else the first number
(`\d+(?:\.\d+)?`), detects the period by the regexes
`per\s*year|per\s*annum|pa|p\.a\.|annually|annual|yearly` and
`per\s*month|/month|monthly|month` (case-insensitive, monthly checked last
so it wins), divides by 12 when yearly, and otherwise applies the large-
number heuristic (INR > 200000 or USD > 100000 ⇒ treat as annual). -/

def CURRENCY_SYMBOLS : List (String × String) :=
  [("$", "USD"), ("€", "EUR"), ("£", "GBP"), ("₹", "INR"), ("Rs", "INR"),
   ("INR", "INR"), ("USD", "USD"), ("EUR", "EUR"), ("GBP", "GBP")]

def detectCurrency (s : List Char) : Option String :=
  (CURRENCY_SYMBOLS.find? fun p => listContainsSub p.1.data s).map Prod.snd

def natOfDigits (ds : List Char) : Nat :=
  ds.foldl (fun a c => a * 10 + (c.toNat - '0'.toNat)) 0

/-- Match the regex `\d+(?:\.\d+)?` anchored at the head of `l` (maximal
munch, as the regex engine's greedy matching yields on this pattern),
returning the number as an exact rational together with the rest of the
input. -/
def parseNumAt (l : List Char) : Option (ℚ × List Char) :=
  match l.takeWhile Char.isDigit with
  | [] => none
  | ds =>
    let rest := l.drop ds.length
    match rest with
    | '.' :: r2 =>
      match r2.takeWhile Char.isDigit with
      | [] => some ((natOfDigits ds : ℚ), rest)
      | fs => some ((natOfDigits ds : ℚ) + (natOfDigits fs : ℚ) / (10 : ℚ) ^ fs.length,
                    r2.drop fs.length)
    | _ => some ((natOfDigits ds : ℚ), rest)

/-- Model of `re.findall(r"\d+(?:\.\d+)?", s)` restricted to its first element:
the leftmost number in the text. -/
def firstNum : List Char → Option ℚ
  | [] => none
  | c :: cs =>
    if c.isDigit then (parseNumAt (c :: cs)).map Prod.fst
    else firstNum cs

/-- Try the range regex `(\d+(?:\.\d+)?)\s*-\s*(\d+(?:\.\d+)?)` anchored at
the head of `l`, returning the first captured group (the lower bound). -/
def matchRangeAt (l : List Char) : Option ℚ :=
  match parseNumAt l with
  | none => none
  | some (low, r1) =>
    match r1.dropWhile isPySpace with
    | '-' :: r3 =>
      match parseNumAt (r3.dropWhile isPySpace) with
      | some _ => some low
      | none => none
    | _ => none

/-- Model of `re.search` for the range pattern: leftmost starting position wins. -/
def searchRange : List Char → Option ℚ
  | [] => none
  | c :: cs =>
    match matchRangeAt (c :: cs) with
    | some low => some low
    | none => searchRange cs

/-- Occurrence of `per\s*<kw>` anywhere in `l` (already lower-cased). -/
def matchPerKw (kw : List Char) : List Char → Bool
  | [] => false
  | c :: cs =>
    (['p', 'e', 'r'].isPrefixOf (c :: cs) &&
      kw.isPrefixOf (((c :: cs).drop 3).dropWhile isPySpace)) ||
    matchPerKw kw cs

/-- Model of `re.search(r"per\s*year|per\s*annum|pa|p\.a\.|annually|annual|yearly", s, re.I)`. -/
def hasYearlyKw (l : List Char) : Bool :=
  matchPerKw "year".data l || matchPerKw "annum".data l ||
  listContainsSub "pa".data l || listContainsSub "p.a.".data l ||
  listContainsSub "annually".data l || listContainsSub "annual".data l ||
  listContainsSub "yearly".data l

/-- Model of `re.search(r"per\s*month|/month|monthly|month", s, re.I)`. -/
def hasMonthlyKw (l : List Char) : Bool :=
  matchPerKw "month".data l || listContainsSub "/month".data l ||
  listContainsSub "monthly".data l || listContainsSub "month".data l

/-- Preprocessing `s = text.replace(",", "").replace("—", "-").replace("–","-")`. -/
def salaryPreprocess (text : String) : List Char :=
  (text.data.filter (· ≠ ',')).map fun c => if c = '—' || c = '–' then '-' else c

/-- The lower bound chosen by the source: the range's first group when the
range regex matches, else the first standalone number. -/
def salaryLow (s : List Char) : Option ℚ :=
  match searchRange s with
  | some lo => some lo
  | none => firstNum s

/-- Model of `extract_salary_numbers(text)`: returns `(monthly, currency, unit)` or
`None`. -/
def extract_salary_numbers (text : String) : Option (ℚ × String × String) :=
  if text = "" then none else
  let s : List Char := salaryPreprocess text
  let currency : Option String := detectCurrency s
  match salaryLow s with
  | none => none
  | some low =>
    let ls := s.map Char.toLower
    let unit : String :=
      if hasMonthlyKw ls then "monthly"
      else if hasYearlyKw ls then "yearly"
      else "monthly"
    let monthly : ℚ :=
      if unit = "yearly" then low / 12
      else if currency = some "INR" ∧ low > 200000 then low / 12
      else if currency = some "USD" ∧ low > 100000 then low / 12
      else low
    some (monthly, currency.getD "UNKNOWN", unit)

/-! ### Cutoff filter (`meets_cutoff`) -/

def SALARY_CUTOFFS : List (String × Nat) :=
  [("india", 70000), ("united states", 4000), ("usa", 4000), ("us", 4000),
   ("germany", 3000), ("uk", 2500), ("default", 0)]

def cutoffFromLocation (loc : String) : Nat :=
  match SALARY_CUTOFFS.find? fun p => p.1 != "default" && containsSub p.1 loc with
  | some p => p.2
  | none => 0

def cutoffsGet (name : String) (dflt : Nat) : Nat :=
  match SALARY_CUTOFFS.find? fun p => p.1 = name with
  | some p => p.2
  | none => dflt

def cutoffFromCurrency (currency : String) (cutoff : Nat) : Nat :=
  if currency = "INR" then cutoffsGet "india" cutoff
  else if currency = "USD" then cutoffsGet "united states" cutoff
  else if currency = "EUR" then cutoffsGet "germany" cutoff
  else if currency = "GBP" then cutoffsGet "uk" cutoff
  else cutoff

def meets_cutoff (job : JobPost) : Bool :=
  if job.salary = "" || (pyUpper job.salary) ∈ ["N/A", "NOT PROVIDED", ""] then
    true
  else
    match extract_salary_numbers job.salary with
    | none => true
    | some (monthly_val, currency, _unit) =>
      let loc := pyLower job.location
      let cutoff := cutoffFromLocation loc
      let cutoff := if cutoff = cutoffsGet "default" 0 then cutoffFromCurrency currency cutoff else cutoff
      decide (monthly_val ≥ (cutoff : ℚ))

/-! ### Auto-apply strategies

Each strategy drives a browser.  The browser primitives can fail (Selenium
raises `NoSuchElementException` and friends); a capability record says which
primitives succeed during the run on one job.  The resume-upload and
phone-fill steps of the source are wrapped in their own `try/except: pass`
blocks and therefore never influence the final status; the capability fields
for them are kept so the records mirror the source's steps. -/

/-- Browser interaction outcomes for one `linkedin_easy_apply` run:
navigation, the two apply-button selectors, the apply click, the (status
neutral) upload/phone steps, and the submit find + click. -/
structure LinkedinCap where
  navigateOk : Bool
  applyBtn1Found : Bool
  applyBtn2Found : Bool
  applyClickOk : Bool
  fileInputFound : Bool
  telFound : Bool
  submitFound : Bool
  submitClickOk : Bool
  deriving DecidableEq, Repr

/-- Model of `linkedin_easy_apply(driver, job)`: the status the strategy writes onto
the job.  An exception in navigation or in the apply click reaches the
outer `except` → `Flagged`; no apply button found (both selectors raise,
caught individually) → `Pending`; the submit block sets `Applied` on
success and `Flagged` when finding or clicking the submit button raises. -/
def linkedin_easy_apply (c : LinkedinCap) : String :=
  if !c.navigateOk then "Flagged"
  else if !(c.applyBtn1Found || c.applyBtn2Found) then "Pending"
  else if !c.applyClickOk then "Flagged"
  else if c.submitFound && c.submitClickOk then "Applied"
  else "Flagged"

/-- Browser interaction outcomes for one run of the Naukri / Wellfound /
Indeed strategies, whose control flow is identical: the apply find *and*
click sit inside one `try` whose handler writes `Pending`. -/
structure SiteCap where
  navigateOk : Bool
  applyFound : Bool
  applyClickOk : Bool
  fileInputFound : Bool
  submitFound : Bool
  submitClickOk : Bool
  deriving DecidableEq, Repr

/-- Model of `naukri_easy_apply(driver, job)`. -/
def naukri_easy_apply (c : SiteCap) : String :=
  if !c.navigateOk then "Flagged"
  else if !(c.applyFound && c.applyClickOk) then "Pending"
  else if c.submitFound && c.submitClickOk then "Applied"
  else "Flagged"

/-- Model of `wellfound_easy_apply(driver, job)` (same control flow as Naukri,
different selectors). -/
def wellfound_easy_apply (c : SiteCap) : String :=
  if !c.navigateOk then "Flagged"
  else if !(c.applyFound && c.applyClickOk) then "Pending"
  else if c.submitFound && c.submitClickOk then "Applied"
  else "Flagged"

/-- Model of `indeed_try_apply(driver, job)` (same control flow as Naukri,
different selectors). -/
def indeed_try_apply (c : SiteCap) : String :=
  if !c.navigateOk then "Flagged"
  else if !(c.applyFound && c.applyClickOk) then "Pending"
  else if c.submitFound && c.submitClickOk then "Applied"
  else "Flagged"

/-- What the browser does for each job handed to each site strategy. -/
structure DriverCaps where
  linkedin : JobPost → LinkedinCap
  naukri : JobPost → SiteCap
  wellfound : JobPost → SiteCap
  indeed : JobPost → SiteCap

/-- One iteration of the loop in `run_selenium_scans_and_apply`: dispatch on
the (lower-cased) link, run the matching strategy, or mark `Pending` for an
unrecognized host.  The second component records whether a site strategy was
invoked on the job. -/
def apply_one (d : DriverCaps) (j : JobPost) : JobPost × Bool :=
  let link := pyLower j.link
  if containsSub "linkedin.com" link then
    ({ j with status := linkedin_easy_apply (d.linkedin j) }, true)
  else if containsSub "naukri.com" link then
    ({ j with status := naukri_easy_apply (d.naukri j) }, true)
  else if containsSub "wellfound.com" link || containsSub "angel.co" link then
    ({ j with status := wellfound_easy_apply (d.wellfound j) }, true)
  else if containsSub "indeed.com" link then
    ({ j with status := indeed_try_apply (d.indeed j) }, true)
  else
    ({ j with status := "Pending" }, false)

/-- Model of `run_selenium_scans_and_apply(driver, jobs, config)`: the per-job loop.
(The loop body's own `except` can only fire if a strategy raises past its
boundary; the strategies above never do, so it is unreachable here.) -/
def run_selenium_scans_and_apply (d : DriverCaps) (jobs : List JobPost) :
    List JobPost :=
  jobs.map fun j => (apply_one d j).1

/-- The cap section of `main`:
`to_apply = shortlisted[:MAX_APPS_PER_RUN]`,
`skipped = shortlisted[MAX_APPS_PER_RUN:]`, every skipped job is forced to
`Pending`, the strategies run over `to_apply` only, and the final export is
the shortlist in its original order with the updated statuses. -/
def main_cap_and_apply (d : DriverCaps) (MAX_APPS_PER_RUN : Nat)
    (shortlisted : List JobPost) : List JobPost :=
  let to_apply := shortlisted.take MAX_APPS_PER_RUN
  let skipped := shortlisted.drop MAX_APPS_PER_RUN
  run_selenium_scans_and_apply d to_apply ++
    skipped.map fun j => { j with status := "Pending" }

/-! ### Contact discovery and outreach (`src/Contact.py`) -/

/-- Word characters `\w` of the source's email regex, on the ASCII alphabet the pipeline
uses: letters, digits and underscore. -/
def isWordChar (c : Char) : Bool := c.isAlphanum || c = '_'

/-- Character class `[\w\.-]` of the email regex. -/
def isLocalChar (c : Char) : Bool := isWordChar c || c = '.' || c = '-'

/-- Split a character list at its first `@`, if any. -/
def splitAtAmp? : List Char → Option (List Char × List Char)
  | [] => none
  | '@' :: r => some ([], r)
  | c :: r => (splitAtAmp? r).map fun p => (c :: p.1, p.2)

/-- Model of `is_valid_email(email)`: `re.match(r"^[\w\.-]+@[\w\.-]+\.\w+$", email)`.
A match decomposes the text as `local@rest` with `local` a nonempty run of
`[\w.-]`, and `rest` of the shape `A.B` with nonempty `A` over `[\w.-]` and
nonempty `B` over `\w`; since `B` can hold no dot, the separating dot is the
last dot of `rest`. -/
def is_valid_email (email : String) : Bool :=
  let chars := email.data
  -- `$` (without `re.M`) also matches just before one trailing newline
  let chars := if chars.getLast? = some '\n' then chars.dropLast else chars
  match splitAtAmp? chars with
  | none => false
  | some (lpart, rest) =>
    let tailRev := rest.reverse.takeWhile (· ≠ '.')
    !lpart.isEmpty && lpart.all isLocalChar &&
    rest.all isLocalChar && rest.contains '.' &&
    !tailRev.isEmpty && tailRev.all isWordChar &&
    decide (tailRev.length + 2 ≤ rest.length)

/-- A decoded Hunter.io HTTP response: the status code and the `value`
fields of `data.emails` in payload order (`none` models an entry whose
`value` key is absent, which `e.get("value")` turns into Python `None`). -/
structure HunterResponse where
  status : Nat
  emails : List (Option String)

/-- The external world `hunter_domain_search` runs against: whether
`HUNTER_API_KEY` is set, and what one GET of the domain-search endpoint
returns for a `(company, domain_hint)` query — `none` models a raised
network error or undecodable payload, which the source catches. -/
structure HunterEnv where
  apiKey : Bool
  respond : String → Option String → Option HunterResponse

/-- Model of `hunter_domain_search(company, domain_hint=None)`: returns the
payload's validated emails on a 200 response and `[]` in every other case
(missing key, non-200 status, raised exception). -/
def hunter_domain_search (env : HunterEnv) (company : String)
    (domain_hint : Option String) : List String :=
  if !env.apiKey then []
  else
    match env.respond company domain_hint with
    | none => []
    | some r =>
      if r.status = 200 then
        r.emails.filterMap fun m? =>
          match m? with
          | some m => if is_valid_email m then some m else none
          | none => none
      else []

/-- One row of the `jobs_with_status.xlsx` input of the enrichment pass
(only the columns `Contact.py` reads). -/
structure Row where
  status : String
  company : String
  role : String
  source : String
  deriving DecidableEq, Repr

def bigtech_keywords : List String :=
  ["google", "microsoft", "amazon", "meta", "apple",
   "netflix", "nvidia", "intel", "oracle", "adobe"]

def startup_sources : List String :=
  ["yc", "wellfound", "startup", "remoteok", "weworkremotely", "remotive"]

/-- Model of `classify_company(job)`. -/
def classify_company (job : Row) : String :=
  let name := pyLower job.company
  let source := pyLower job.source
  if bigtech_keywords.any fun b => containsSub b name then "bigtech"
  else if startup_sources.any fun s => containsSub s source then "startup"
  else "midlevel"

/-- Model of `generate_cold_email(job, email)`: the three f-string templates. -/
def generate_cold_email (job : Row) (email : String) : String :=
  let ctype := classify_company job
  let emailLine := "Email: " ++ (if email = "" then "your_email_here" else email) ++ "  \n"
  if ctype = "startup" then
    "Subject: Excited about " ++ job.role ++ " at " ++ job.company ++ "\n\n" ++
    "Hi " ++ job.company ++ " Team,\n\n" ++
    "I came across the " ++ job.role ++ " role at " ++ job.company ++
    " and it immediately resonated with me. \n" ++
    "As someone deeply involved in Machine Learning, Edge AI and Robotics projects (including leading a 50+ member rover team), \n" ++
    "I thrive in fast-paced environments where ideas quickly turn into real products.\n\n" ++
    "I’d love to contribute my skills to help " ++ job.company ++ " build and scale faster. \n" ++
    "Let me know if we could connect for a quick chat.\n\n" ++
    "Best,  \nVyomesh  \n" ++ emailLine ++ "LinkedIn: linkedin.com/in/yourprofile\n"
  else if ctype = "bigtech" then
    "Subject: Application Follow-Up – " ++ job.role ++ " at " ++ job.company ++ "\n\n" ++
    "Dear " ++ job.company ++ " Recruitment Team,\n\n" ++
    "I recently applied for the " ++ job.role ++ " role and wanted to follow up directly. \n" ++
    "With my background in Computer Vision, Embedded AI, and ML research, I’m eager to contribute to impactful large-scale systems \n" ++
    "that align with " ++ job.company ++ "\x27s mission.\n\n" ++
    "Please let me know if additional details would be helpful. I’d be delighted to discuss how my experience can add value.\n\n" ++
    "Sincerely,  \nVyomesh  \n" ++ emailLine ++ "LinkedIn: linkedin.com/in/yourprofile\n"
  else
    "Subject: Interest in " ++ job.role ++ " at " ++ job.company ++ "\n\n" ++
    "Hi " ++ job.company ++ " Hiring Team,\n\n" ++
    "I recently submitted an application for the " ++ job.role ++ " role at " ++ job.company ++ ". \n" ++
    "My experience spans ML model deployment, robotics software, and embedded systems, which I believe aligns with this position.\n\n" ++
    "I’d be happy to share more details about my background and projects if helpful. Looking forward to your response.\n\n" ++
    "Best regards,  \nVyomesh  \n" ++ emailLine ++ "LinkedIn: linkedin.com/in/yourprofile\n"

/-- Model of `generate_linkedin_message(job)`. -/
def generate_linkedin_message (job : Row) : String :=
  let ctype := classify_company job
  if ctype = "startup" then
    "Hi! Just applied for the " ++ job.role ++ " role at " ++ job.company ++ ". \n" ++
    "Excited about what you’re building – would love to connect and explore how I can contribute."
  else if ctype = "bigtech" then
    "Hello, I recently applied for the " ++ job.role ++ " role at " ++ job.company ++ ". \n" ++
    "I’d appreciate connecting to stay updated and learn more about the team."
  else
    "Hi, I applied for the " ++ job.role ++ " role at " ++ job.company ++ ". \n" ++
    "Would be great to connect and understand more about the opportunity."

/-- The body of the row loop of `Contact.py`'s `main`: for one input row it
produces the three output cells (`Recruiter Contacts`, `Cold Email Draft`,
`LinkedIn Message`) and, as the last component, whether a Hunter.io lookup
was performed for the row. -/
def processRow (env : HunterEnv) (row : Row) :
    String × String × String × Bool :=
  if pyLower row.status = "applied" then
    let emails := hunter_domain_search env row.company none
    let email_str := if emails.isEmpty then "N/A" else String.intercalate ", " emails
    (email_str, generate_cold_email row (emails.headD ""),
     generate_linkedin_message row, true)
  else
    ("", "", "", false)

/-- The row loop of `Contact.py`'s `main` over the whole input table. -/
def contact_main (env : HunterEnv) (rows : List Row) :
    List (String × String × String × Bool) :=
  rows.map (processRow env)

/-! ### Concrete inputs used by witnesses and counterexamples -/

/-- Two listings equal up to letter case everywhere, the link included. -/
def jLinkUpper : JobPost :=
  { company := " Acme ", role := "ML Engineer", location := "India",
    link := "HTTP://X.COM/J1", source := "LinkedIn" }

def jLinkLower : JobPost :=
  { company := "acme", role := " ml engineer", location := "INDIA ",
    link := "http://x.com/j1", source := "Naukri" }

/-- Two listings whose fields agree after trimming and lower-casing the
textual fields and trimming the link (same letter case). -/
def jTrim1 : JobPost :=
  { company := " Acme ", role := "ML Engineer", location := "India",
    link := " http://x.com/j1 ", source := "LinkedIn" }

def jTrim2 : JobPost :=
  { company := "acme", role := " ml engineer", location := "INDIA ",
    link := "http://x.com/j1", source := "Naukri" }

/-- Three listings for the dedup witness: the first and third share a key. -/
def jDupA : JobPost :=
  { company := "Acme", role := "Dev", location := "Pune", link := "http://a",
    source := "yc" }

def jDupB : JobPost :=
  { company := "Beta", role := "Dev", location := "Pune", link := "http://b",
    source := "yc" }

def jDupA2 : JobPost :=
  { company := " ACME ", role := "dev", location := "PUNE", link := "http://a",
    source := "Indeed" }

/-- A Hunter.io environment whose (single, primary) provider answers every
query with a well-formed 200 response holding no emails at all. -/
def envPrimaryEmpty : HunterEnv :=
  { apiKey := true, respond := fun _ _ => some { status := 200, emails := [] } }

def rowAcmeApplied : Row :=
  { status := "Applied", company := "Acme", role := "ML Engineer", source := "yc" }

def rowAcmePending : Row :=
  { status := "Pending", company := "Acme", role := "ML Engineer", source := "yc" }

/-- A Hunter.io environment whose provider answers every query with one
validated email. -/
def envPrimaryFull : HunterEnv :=
  { apiKey := true,
    respond := fun _ _ => some { status := 200, emails := [some "a@acme.com"] } }

/-- A browser in which every primitive succeeds. -/
def capsAllOk : DriverCaps :=
  { linkedin := fun _ => ⟨true, true, true, true, true, true, true, true⟩,
    naukri := fun _ => ⟨true, true, true, true, true, true⟩,
    wellfound := fun _ => ⟨true, true, true, true, true, true⟩,
    indeed := fun _ => ⟨true, true, true, true, true, true⟩ }

/-- A browser in which every primitive fails. -/
def capsAllFail : DriverCaps :=
  { linkedin := fun _ => ⟨false, false, false, false, false, false, false, false⟩,
    naukri := fun _ => ⟨false, false, false, false, false, false⟩,
    wellfound := fun _ => ⟨false, false, false, false, false, false⟩,
    indeed := fun _ => ⟨false, false, false, false, false, false⟩ }

def jCapLi : JobPost :=
  { company := "Acme", role := "Dev", location := "Pune",
    link := "https://www.linkedin.com/jobs/view/1", source := "LinkedIn" }

def jCapNk : JobPost :=
  { company := "Beta", role := "Dev", location := "Pune",
    link := "https://www.naukri.com/job-2", source := "Naukri" }

def jCapIn : JobPost :=
  { company := "Gamma", role := "Dev", location := "Pune",
    link := "https://www.indeed.com/viewjob?jk=3", source := "Indeed" }

/-- The "element never found" browser for the LinkedIn strategy: navigation
works, every `find_element` raises. -/
def capElementNeverFound : LinkedinCap :=
  { navigateOk := true, applyBtn1Found := false, applyBtn2Found := false,
    applyClickOk := true, fileInputFound := false, telFound := false,
    submitFound := false, submitClickOk := true }

/-! ## Theorems -/

/-! ### Deduplicator lemmas -/

theorem dedupeAux_sublist (l : List JobPost)
    (seen : List (String × String × String × String)) :
    (dedupeAux seen l).Sublist l := by
  induction l generalizing seen with
  | nil => simp [dedupeAux]
  | cons j js ih =>
    unfold dedupeAux
    by_cases h : j.dedupe_key ∈ seen
    · simpa [h] using (ih seen).trans (List.sublist_cons_self _ _)
    · simpa [h] using (ih (j.dedupe_key :: seen)).cons₂ j

theorem dedupeAux_filter_key (l : List JobPost)
    (seen : List (String × String × String × String))
    (k : String × String × String × String) :
    (dedupeAux seen l).filter (fun j => decide (j.dedupe_key = k)) =
      if k ∈ seen then []
      else (l.filter fun j => decide (j.dedupe_key = k)).take 1 := by
  induction l generalizing seen with
  | nil => by_cases h : k ∈ seen <;> simp [dedupeAux, h]
  | cons j js ih =>
    unfold dedupeAux
    by_cases hseen : j.dedupe_key ∈ seen
    · rw [if_pos hseen, ih]
      by_cases hk : j.dedupe_key = k
      · subst hk
        rw [if_pos hseen, if_pos hseen]
      · by_cases hks : k ∈ seen
        · rw [if_pos hks, if_pos hks]
        · rw [if_neg hks, if_neg hks, List.filter_cons_of_neg]
          simpa using hk
    · rw [if_neg hseen]
      by_cases hk : j.dedupe_key = k
      · subst hk
        rw [List.filter_cons_of_pos (by simp), ih, if_pos (by simp),
          if_neg hseen, List.filter_cons_of_pos (by simp), List.take_succ_cons,
          List.take_zero]
      · rw [List.filter_cons_of_neg (by simpa using hk), ih,
          List.filter_cons_of_neg (by simpa using hk)]
        by_cases hks : k ∈ seen
        · rw [if_pos hks, if_pos (by simp [hks])]
        · rw [if_neg hks, if_neg (by simp [hks, Ne.symm hk])]

theorem dedupeAux_keys_fresh (l : List JobPost)
    (seen : List (String × String × String × String)) :
    ((dedupeAux seen l).map JobPost.dedupe_key).Nodup ∧
      ∀ k ∈ (dedupeAux seen l).map JobPost.dedupe_key, k ∉ seen := by
  induction l generalizing seen with
  | nil => simp [dedupeAux]
  | cons j js ih =>
    unfold dedupeAux
    by_cases h : j.dedupe_key ∈ seen
    · simpa [h] using ih seen
    · rw [if_neg h]
      obtain ⟨hnd, hfresh⟩ := ih (j.dedupe_key :: seen)
      refine ⟨?_, ?_⟩
      · simp only [List.map_cons, List.nodup_cons]
        exact ⟨fun hmem => (hfresh _ hmem) (List.mem_cons_self _ _), hnd⟩
      · intro k hk
        simp only [List.map_cons, List.mem_cons] at hk
        rcases hk with rfl | hk
        · exact h
        · exact fun hks => (hfresh _ hk) (List.mem_cons_of_mem _ hks)

theorem dedupeAux_fixed (l : List JobPost)
    (seen : List (String × String × String × String))
    (hnd : (l.map JobPost.dedupe_key).Nodup)
    (hfresh : ∀ k ∈ l.map JobPost.dedupe_key, k ∉ seen) :
    dedupeAux seen l = l := by
  induction l generalizing seen with
  | nil => simp [dedupeAux]
  | cons j js ih =>
    simp only [List.map_cons, List.nodup_cons, List.mem_cons] at hnd hfresh
    rw [dedupeAux, if_neg (hfresh j.dedupe_key (Or.inl rfl)),
      ih (j.dedupe_key :: seen) hnd.2]
    intro k hk
    simp only [List.mem_cons]
    rintro (rfl | hks)
    · exact hnd.1 (by simpa using hk)
    · exact hfresh k (Or.inr (by simpa using hk)) hks

/-- C6: `dedupe_jobs` is a single in-order pass: whenever an input sequence
holds two or more records with the same identity key, the output holds
exactly one record with that key — the first-occurring one — and the output
preserves the relative order of the input (it is a sublist, hence the order
of first occurrences). -/
theorem dedupe_first_occurrence_wins (l : List JobPost)
    (k : String × String × String × String)
    (h : 2 ≤ (l.filter fun j => decide (j.dedupe_key = k)).length) :
    (dedupe_jobs l).filter (fun j => decide (j.dedupe_key = k)) =
        (l.filter fun j => decide (j.dedupe_key = k)).take 1 ∧
      ((dedupe_jobs l).filter fun j => decide (j.dedupe_key = k)).length = 1 ∧
      (dedupe_jobs l).Sublist l := by
  have hfilter := dedupeAux_filter_key l [] k
  simp only [List.not_mem_nil, if_false] at hfilter
  refine ⟨hfilter, ?_, dedupeAux_sublist l []⟩
  rw [dedupe_jobs, hfilter, List.length_take]
  omega

/-- C6 witness: on `[jDupA, jDupB, jDupA2]`, where `jDupA` and `jDupA2`
share a key, the deduplicated output keeps exactly the first of the two. -/
theorem dedupe_first_occurrence_wins_witness :
    (dedupe_jobs [jDupA, jDupB, jDupA2]).filter
        (fun j => decide (j.dedupe_key = jDupA.dedupe_key)) = [jDupA] ∧
      ((dedupe_jobs [jDupA, jDupB, jDupA2]).filter
        fun j => decide (j.dedupe_key = jDupA.dedupe_key)).length = 1 := by
  have h := dedupe_first_occurrence_wins [jDupA, jDupB, jDupA2]
    jDupA.dedupe_key (by decide)
  exact ⟨h.1.trans (by decide), h.2.1⟩

/-- C7: deduplication is idempotent. -/
theorem dedupe_idempotent (l : List JobPost) :
    dedupe_jobs (dedupe_jobs l) = dedupe_jobs l :=
  dedupeAux_fixed (dedupe_jobs l) []
    (dedupeAux_keys_fresh l []).1 (by simp)

/-- C8 counterexample: the identity key does *not* lower-case the link.
`jLinkUpper` and `jLinkLower` agree field-by-field after trimming and
lower-casing (the link included), yet their keys differ and `dedupe_jobs`
keeps both records. -/
theorem dedupe_key_link_case_sensitive :
    (pyLower (pyStrip jLinkUpper.company) = pyLower (pyStrip jLinkLower.company) ∧
      pyLower (pyStrip jLinkUpper.role) = pyLower (pyStrip jLinkLower.role) ∧
      pyLower (pyStrip jLinkUpper.location) = pyLower (pyStrip jLinkLower.location) ∧
      pyLower (pyStrip jLinkUpper.link) = pyLower (pyStrip jLinkLower.link)) ∧
      jLinkUpper.dedupe_key ≠ jLinkLower.dedupe_key ∧
      dedupe_jobs [jLinkUpper, jLinkLower] = [jLinkUpper, jLinkLower] := by
  decide

/-- C8 (amended): the identity key is the lower-cased trimmed tuple of
(company, role, location) together with the trimmed — but case-sensitive —
link; two records agreeing after trimming and lower-casing company, role
and location and after trimming the link share a key and are treated as one
listing by `dedupe_jobs`. -/
theorem dedupe_key_trim_lower (j1 j2 : JobPost)
    (hc : pyLower (pyStrip j1.company) = pyLower (pyStrip j2.company))
    (hr : pyLower (pyStrip j1.role) = pyLower (pyStrip j2.role))
    (hl : pyLower (pyStrip j1.location) = pyLower (pyStrip j2.location))
    (hk : pyStrip j1.link = pyStrip j2.link) :
    j1.dedupe_key = j2.dedupe_key ∧ dedupe_jobs [j1, j2] = [j1] := by
  have hkey : j1.dedupe_key = j2.dedupe_key := by
    simp [JobPost.dedupe_key, hc, hr, hl, hk]
  refine ⟨hkey, ?_⟩
  simp [dedupe_jobs, dedupeAux, hkey]

/-- C8 witness: `jTrim1` and `jTrim2` agree after trimming/lower-casing the
textual fields and trimming the link, share a key, and dedupe to the first. -/
theorem dedupe_key_trim_lower_witness :
    jTrim1.dedupe_key = jTrim2.dedupe_key ∧ dedupe_jobs [jTrim1, jTrim2] = [jTrim1] :=
  dedupe_key_trim_lower jTrim1 jTrim2 (by decide) (by decide) (by decide) (by decide)

/-! ### Salary claims -/

/-- C4: a record with an empty salary field, with the sentinel `N/A` in any
letter case, with `NOT PROVIDED`, or with text from which no number can be
parsed always passes the cutoff filter. -/
theorem meets_cutoff_permissive (j : JobPost)
    (h : j.salary = "" ∨ pyUpper j.salary = "N/A" ∨
      pyUpper j.salary = "NOT PROVIDED" ∨ extract_salary_numbers j.salary = none) :
    meets_cutoff j = true := by
  unfold meets_cutoff
  rcases h with h | h | h | h
  · simp [h]
  · simp [h]
  · simp [h]
  · split
    · rfl
    · rw [h]

/-- C4 witness: instances of all four permissive cases. -/
theorem meets_cutoff_permissive_witness :
    meets_cutoff { jDupA with salary := "" } = true ∧
      meets_cutoff { jDupA with salary := "n/A" } = true ∧
      meets_cutoff { jDupA with salary := "not provided" } = true ∧
      meets_cutoff { jDupA with salary := "competitive pay" } = true :=
  ⟨meets_cutoff_permissive _ (Or.inl (by decide)),
   meets_cutoff_permissive _ (Or.inr (Or.inl (by decide))),
   meets_cutoff_permissive _ (Or.inr (Or.inr (Or.inl (by decide)))),
   meets_cutoff_permissive _ (Or.inr (Or.inr (Or.inr (by decide))))⟩

/-- C5 counterexample: the claim reads `parseSalary("₹250000") … yields
monthly 900000/12 ≈ 20833.33`; the code yields `250000/12` (which is
`20833.33…` but not `900000/12 = 75000`). -/
theorem salary_250000_counterexample :
    extract_salary_numbers "₹250000" = some ((250000 : ℚ) / 12, "INR", "monthly") ∧
      extract_salary_numbers "₹250000" ≠
        some ((900000 : ℚ) / 12, "INR", "monthly") ∧
      (250000 : ℚ) / 12 ≠ (900000 : ℚ) / 12 := by
  have h : extract_salary_numbers "₹250000" =
      some ((250000 : ℚ) / 12, "INR", "monthly") := rfl
  refine ⟨h, ?_, by norm_num⟩
  rw [h]
  simp only [ne_eq, Option.some_inj, Prod.mk.injEq, not_and]
  intro h2
  exact absurd h2 (by norm_num)

/-- C5 (amended): `parseSalary("₹900000 per annum")` yields monthly 75000,
INR, yearly; `parseSalary("$8000/month")` yields monthly 8000, USD, monthly;
`parseSalary("₹250000")` (no period keyword, INR, above 200000) is
reinterpreted as annual and yields monthly `250000/12 = 62500/3 ≈ 20833.33`. -/
theorem salary_conversion_examples :
    extract_salary_numbers "₹900000 per annum" = some (75000, "INR", "yearly") ∧
      extract_salary_numbers "$8000/month" = some (8000, "USD", "monthly") ∧
      extract_salary_numbers "₹250000" = some ((250000 : ℚ) / 12, "INR", "monthly") ∧
      (250000 : ℚ) / 12 = 62500 / 3 := by
  refine ⟨?_, by decide, rfl, by norm_num⟩
  have h : extract_salary_numbers "₹900000 per annum" =
      some ((900000 : ℚ) / 12, "INR", "yearly") := rfl
  rw [h]
  norm_num

/-- C10: the annual-reinterpretation heuristic fires even when an explicit
monthly keyword is present: if the (preprocessed) text has a monthly
keyword, its detected currency is USD with lower bound above 100000 or INR
with lower bound above 200000, the amount is divided by 12 while the
reported period stays `monthly`. -/
theorem annual_heuristic_with_monthly_keyword (text : String) (cur : String)
    (low : ℚ)
    (hm : hasMonthlyKw ((salaryPreprocess text).map Char.toLower) = true)
    (hcur : detectCurrency (salaryPreprocess text) = some cur)
    (hlow : salaryLow (salaryPreprocess text) = some low)
    (hbig : (cur = "USD" ∧ low > 100000) ∨ (cur = "INR" ∧ low > 200000)) :
    extract_salary_numbers text = some (low / 12, cur, "monthly") := by
  have htext : text ≠ "" := by
    intro h
    rw [h] at hm
    exact absurd hm (by decide)
  unfold extract_salary_numbers
  rw [if_neg htext]
  simp only [hlow, hcur, hm, if_true, Option.getD_some]
  rcases hbig with ⟨rfl, hgt⟩ | ⟨rfl, hgt⟩
  · rw [if_neg (by simp), if_neg (by simp), if_pos ⟨rfl, hgt⟩]
  · rw [if_neg (by simp), if_pos ⟨rfl, hgt⟩]

/-- C10 witness: `"$150000/month"` is parsed to monthly `150000/12 = 12500`
with period `monthly`, not `150000`. -/
theorem annual_heuristic_with_monthly_keyword_witness :
    extract_salary_numbers "$150000/month" =
        some ((150000 : ℚ) / 12, "USD", "monthly") ∧
      (150000 : ℚ) / 12 = 12500 :=
  ⟨annual_heuristic_with_monthly_keyword "$150000/month" "USD" 150000
      (by decide) rfl rfl (Or.inl ⟨rfl, by norm_num⟩),
   by norm_num⟩

/-! ### Application state machine claims -/

theorem linkedin_status_cases (c : LinkedinCap) :
    linkedin_easy_apply c = "Applied" ∨ linkedin_easy_apply c = "Pending" ∨
      linkedin_easy_apply c = "Flagged" := by
  unfold linkedin_easy_apply
  repeat' split
  all_goals simp

theorem naukri_status_cases (c : SiteCap) :
    naukri_easy_apply c = "Applied" ∨ naukri_easy_apply c = "Pending" ∨
      naukri_easy_apply c = "Flagged" := by
  unfold naukri_easy_apply
  repeat' split
  all_goals simp

theorem wellfound_status_cases (c : SiteCap) :
    wellfound_easy_apply c = "Applied" ∨ wellfound_easy_apply c = "Pending" ∨
      wellfound_easy_apply c = "Flagged" := by
  unfold wellfound_easy_apply
  repeat' split
  all_goals simp

theorem indeed_status_cases (c : SiteCap) :
    indeed_try_apply c = "Applied" ∨ indeed_try_apply c = "Pending" ∨
      indeed_try_apply c = "Flagged" := by
  unfold indeed_try_apply
  repeat' split
  all_goals simp

/-- C3 counterexample: feed the LinkedIn strategy a browser that navigates
fine but never finds any element — the record ends `Pending`, not
`Flagged`, against the claim that a missing element yields `Flagged`. -/
theorem element_never_found_pending :
    linkedin_easy_apply capElementNeverFound = "Pending" ∧
      linkedin_easy_apply capElementNeverFound ≠ "Flagged" := by
  decide

/-- C3 (amended): every record processed by the apply loop ends in exactly
one of `Applied`/`Pending`/`Flagged` — strategies are total, no exception
propagates past the strategy boundary to abort the batch.  Navigation
errors and failures after the apply affordance stage downgrade the record
to `Flagged`; but a missing apply affordance (and on the Naukri-shaped
strategies a failed apply click) leaves the record `Pending` rather than
`Flagged`. -/
theorem state_machine_totality :
    (∀ (d : DriverCaps) (j : JobPost),
      ((apply_one d j).1).status = "Applied" ∨
        ((apply_one d j).1).status = "Pending" ∨
        ((apply_one d j).1).status = "Flagged") ∧
    (∀ c : LinkedinCap, c.navigateOk = false → linkedin_easy_apply c = "Flagged") ∧
    (∀ c : LinkedinCap, c.navigateOk = true → c.applyBtn1Found = false →
      c.applyBtn2Found = false → linkedin_easy_apply c = "Pending") ∧
    (∀ c : LinkedinCap, c.navigateOk = true →
      (c.applyBtn1Found || c.applyBtn2Found) = true → c.applyClickOk = true →
      (c.submitFound && c.submitClickOk) = false →
      linkedin_easy_apply c = "Flagged") ∧
    (∀ c : SiteCap, c.navigateOk = false → naukri_easy_apply c = "Flagged") ∧
    (∀ c : SiteCap, c.navigateOk = true → (c.applyFound && c.applyClickOk) = false →
      naukri_easy_apply c = "Pending") ∧
    (∀ c : SiteCap, c.navigateOk = true → (c.applyFound && c.applyClickOk) = true →
      (c.submitFound && c.submitClickOk) = false → naukri_easy_apply c = "Flagged") ∧
    (∀ c : SiteCap, wellfound_easy_apply c = naukri_easy_apply c ∧
      indeed_try_apply c = naukri_easy_apply c) := by
  refine ⟨?_, ?_, ?_, ?_, ?_, ?_, ?_, fun c => ⟨rfl, rfl⟩⟩
  · intro d j
    simp only [apply_one]
    repeat' split
    · simpa using linkedin_status_cases (d.linkedin j)
    · simpa using naukri_status_cases (d.naukri j)
    · simpa using wellfound_status_cases (d.wellfound j)
    · simpa using indeed_status_cases (d.indeed j)
    · simp
  · intro c h
    simp [linkedin_easy_apply, h]
  · intro c h h1 h2
    simp [linkedin_easy_apply, h, h1, h2]
  · intro c h hb hc hs
    simp [linkedin_easy_apply, h, hb, hc, hs]
  · intro c h
    simp [naukri_easy_apply, h]
  · intro c h ha
    simp [naukri_easy_apply, h, ha]
  · intro c h ha hs
    simp [naukri_easy_apply, h, ha, hs]

/-- C3 witness: concrete instantiations — a navigation failure is
`Flagged`, a failed Naukri apply stage is `Pending`, and a dispatched job
gets one of the three statuses. -/
theorem state_machine_totality_witness :
    linkedin_easy_apply ⟨false, true, true, true, true, true, true, true⟩ = "Flagged" ∧
      naukri_easy_apply ⟨true, false, true, true, true, true⟩ = "Pending" ∧
      (((apply_one capsAllOk jCapLi).1).status = "Applied" ∨
        ((apply_one capsAllOk jCapLi).1).status = "Pending" ∨
        ((apply_one capsAllOk jCapLi).1).status = "Flagged") :=
  ⟨state_machine_totality.2.1 _ rfl,
   state_machine_totality.2.2.2.2.2.1 _ rfl rfl,
   state_machine_totality.1 capsAllOk jCapLi⟩

/-- C1: for a shortlist of length `k` and cap `c`, the export of the cap-
and-apply phase is: the strategy dispatch applied to exactly the first
`min(k,c)` records in order, followed by the remaining `k - c` records
forced to `Pending`; the beyond-cap tail is independent of what the
browser/strategies do (`d` vs `d'`), i.e. no strategy is ever invoked on
it. -/
theorem cap_enforcement (d d' : DriverCaps) (c : Nat) (l : List JobPost) :
    main_cap_and_apply d c l =
        (l.take c).map (fun j => (apply_one d j).1) ++
          (l.drop c).map (fun j => { j with status := "Pending" }) ∧
      (l.take c).length = min c l.length ∧
      (l.drop c).length = l.length - c ∧
      (∀ j ∈ (main_cap_and_apply d c l).drop (min c l.length),
        j.status = "Pending") ∧
      (main_cap_and_apply d c l).drop (min c l.length) =
        (main_cap_and_apply d' c l).drop (min c l.length) := by
  have hdrop : ∀ dd : DriverCaps, (main_cap_and_apply dd c l).drop (min c l.length) =
      (l.drop c).map (fun j => { j with status := "Pending" }) := by
    intro dd
    have hlen : ((l.take c).map fun j => (apply_one dd j).1).length = min c l.length := by
      rw [List.length_map, List.length_take]
    show (((l.take c).map fun j => (apply_one dd j).1) ++
        (l.drop c).map (fun j : JobPost => { j with status := "Pending" })).drop
          (min c l.length) = _
    rw [← hlen, List.drop_left]
  refine ⟨rfl, List.length_take .., List.length_drop .., ?_, ?_⟩
  · intro j hj
    rw [hdrop d] at hj
    obtain ⟨j', -, rfl⟩ := List.mem_map.mp hj
    rfl
  · rw [hdrop d, hdrop d']

/-- C1 witness: with cap 2 over a 3-element shortlist, the third record is
exported beyond the cap with status `Pending`. -/
theorem cap_enforcement_witness :
    ({ jCapIn with status := "Pending" } : JobPost) ∈
        (main_cap_and_apply capsAllOk 2 [jCapLi, jCapNk, jCapIn]).drop
          (min 2 [jCapLi, jCapNk, jCapIn].length) ∧
      ({ jCapIn with status := "Pending" } : JobPost).status = "Pending" :=
  have hmem : ({ jCapIn with status := "Pending" } : JobPost) ∈
      (main_cap_and_apply capsAllOk 2 [jCapLi, jCapNk, jCapIn]).drop
        (min 2 [jCapLi, jCapNk, jCapIn].length) := by decide
  ⟨hmem, (cap_enforcement capsAllOk capsAllFail 2 [jCapLi, jCapNk, jCapIn]).2.2.2.1
    _ hmem⟩

/-! ### Contact discovery claims -/

theorem append_ne_empty_left (s t : String) (h : s ≠ "") : s ++ t ≠ "" := by
  intro hh
  apply h
  have hd := congrArg String.data hh
  rw [String.data_append] at hd
  rcases List.append_eq_nil.mp hd with ⟨h1, -⟩
  cases s
  exact congrArg String.mk h1

theorem generate_cold_email_ne_empty (row : Row) (e : String) :
    generate_cold_email row e ≠ "" := by
  simp only [generate_cold_email]
  repeat' split
  all_goals repeat' apply append_ne_empty_left
  all_goals decide

theorem generate_linkedin_message_ne_empty (row : Row) :
    generate_linkedin_message row ≠ "" := by
  simp only [generate_linkedin_message]
  repeat' split
  all_goals repeat' apply append_ne_empty_left
  all_goals decide

/-- C2 counterexample: the enrichment pass has no domain-resolver and no
secondary email-finder to fall back to — its one provider call is
`hunter_domain_search(company)`.  With the primary provider returning a
well-formed response with no emails, discovery returns the empty list and
the recruiter-contacts cell is the sentinel `"N/A"`: not the email set
`["a@acme.com"]` the claim requires from a secondary finder, and not a
resolved domain such as `"acme.com"`. -/
theorem contact_chain_counterexample :
    hunter_domain_search envPrimaryEmpty "Acme" none = [] ∧
      (processRow envPrimaryEmpty rowAcmeApplied).1 = "N/A" ∧
      ([] : List String) ≠ ["a@acme.com"] ∧
      ("N/A" : String) ≠ "acme.com" := by
  decide

/-- C2 (amended): contact discovery is a single Hunter.io domain-search by
company name (no domain hint); whenever that sole call yields no validated
email, the row is exported with recruiter-contacts `"N/A"`, a cold-email
draft built with the empty fallback address, and the LinkedIn message —
there is no domain-resolution step, no secondary finder, and no resolved
domain is ever returned. -/
theorem contact_discovery_no_fallback (env : HunterEnv) (row : Row)
    (happ : pyLower row.status = "applied")
    (hempty : hunter_domain_search env row.company none = []) :
    processRow env row =
      ("N/A", generate_cold_email row "", generate_linkedin_message row, true) := by
  unfold processRow
  rw [if_pos happ, hempty]
  simp

/-- C2 witness: the amended theorem applied to the empty-response provider
and an applied Acme row. -/
theorem contact_discovery_no_fallback_witness :
    processRow envPrimaryEmpty rowAcmeApplied =
      ("N/A", generate_cold_email rowAcmeApplied "",
        generate_linkedin_message rowAcmeApplied, true) :=
  contact_discovery_no_fallback envPrimaryEmpty rowAcmeApplied (by decide) (by decide)

/-- C9: contact enrichment applies only to `Applied` rows: a `Pending` or
`Flagged` row triggers no Hunter.io lookup (its output is independent of
the provider environment and its lookup flag is `false`) and all three
output cells stay empty, while an `Applied` row gets a lookup and non-empty
generated outreach drafts. -/
theorem enrichment_only_for_applied (env env' : HunterEnv) (row : Row) :
    ((row.status = "Pending" ∨ row.status = "Flagged") →
      processRow env row = ("", "", "", false) ∧
        processRow env row = processRow env' row) ∧
      (row.status = "Applied" →
        (processRow env row).2.2.2 = true ∧
          (processRow env row).2.1 =
            generate_cold_email row
              ((hunter_domain_search env row.company none).headD "") ∧
          (processRow env row).2.2.1 = generate_linkedin_message row ∧
          (processRow env row).2.1 ≠ "" ∧
          (processRow env row).2.2.1 ≠ "") := by
  constructor
  · intro h
    have hne : ¬pyLower row.status = "applied" := by
      rcases h with h | h <;> rw [h] <;> decide
    unfold processRow
    rw [if_neg hne, if_neg hne]
    exact ⟨rfl, rfl⟩
  · intro h
    have happ : pyLower row.status = "applied" := by rw [h]; decide
    unfold processRow
    rw [if_pos happ]
    exact ⟨rfl, rfl, rfl, generate_cold_email_ne_empty _ _,
      generate_linkedin_message_ne_empty _⟩

/-- C9 witness: a `Pending` Acme row is exported untouched with empty
cells even against a provider that would return data, and an `Applied` row
gets the lookup flag and drafts. -/
theorem enrichment_only_for_applied_witness :
    (processRow envPrimaryEmpty rowAcmePending = ("", "", "", false) ∧
        processRow envPrimaryEmpty rowAcmePending =
          processRow envPrimaryFull rowAcmePending) ∧
      (processRow envPrimaryEmpty rowAcmeApplied).2.2.2 = true :=
  ⟨(enrichment_only_for_applied envPrimaryEmpty envPrimaryFull rowAcmePending).1
      (Or.inl rfl),
   ((enrichment_only_for_applied envPrimaryEmpty envPrimaryEmpty
      rowAcmeApplied).2 rfl).1⟩

end AutoApply
